import Mathlib

/-!
# Verification of the egm-streamer detection pipeline

Shallow embedding of the detection pipeline of the `egm-streamer`
repository: the debounce state machine (`egm_state_detector/state_machine.py`),
the ROI matcher (`egm_streamer/matcher.py`), the reference-fingerprint cache
(`egm_streamer/refs.py`), the configuration link resolution
(`egm_streamer/config.py`), the detection orchestrator
(`egm_streamer/detector.py`) and the capture supervisor's restart backoff
(`egm_streamer/capture.py`), together with theorems settling the spec claims.

Machine integers are embedded as `Nat`; Python floats are embedded as `ℚ`
(all float values arising in the matcher are exact small rationals, far from
the magnitudes at which double rounding could cross an integer threshold).
Images and perceptual hashes are embedded as bit lists with Hamming distance,
matching the `imagehash` collaborator's distance contract.
-/

namespace EgmStreamer

/-! ## Debounce state machine (`egm_state_detector/state_machine.py`) -/

/-- Embeds `DebounceConfig` from `models.py`: confirm/drop streak thresholds. -/
structure DebounceConfig where
  confirm_frames : Nat
  drop_frames : Nat

/-- The mutable state of `StateMachine`: the stabilized `current_state`,
the per-candidate hit-streak dictionary (a total function, absent keys read
as 0, matching `dict.get(k, 0)` semantics) and the consecutive-miss counter
`none_streak`. -/
structure SM where
  current_state : String
  streaks : String → Nat
  none_streak : Nat

/-- Initial machine state from `StateMachine.__init__`. -/
def SM.init : SM := ⟨"OTHER", fun _ => 0, 0⟩

/-- Embeds `StateMachine.update`, translated line by line.  Phase 1 updates the
streak counters (a non-`OTHER` input bumps its own streak and zeroes every
other streak and the miss streak; an `OTHER` input bumps the miss streak and
clears all hit streaks); phase 2 performs the transition. -/
def SM.update (cfg : DebounceConfig) (s : SM) (detected_state : String) : SM :=
  -- 1. Update streaks
  let s1 : SM :=
    if detected_state ≠ "OTHER" then
      { s with
        streaks := fun t => if t = detected_state then s.streaks detected_state + 1 else 0,
        none_streak := 0 }
    else
      { s with none_streak := s.none_streak + 1, streaks := fun _ => 0 }
  -- 2. State transition logic
  let cur :=
    if s1.current_state = "OTHER" then
      if detected_state ≠ "OTHER" ∧ cfg.confirm_frames ≤ s1.streaks detected_state then
        detected_state
      else s1.current_state
    else
      if detected_state = s1.current_state then s1.current_state
      else if detected_state ≠ "OTHER" then
        if cfg.confirm_frames ≤ s1.streaks detected_state then detected_state
        else s1.current_state
      else
        if cfg.drop_frames ≤ s1.none_streak then "OTHER" else s1.current_state
  { s1 with current_state := cur }

/-- Feed the same candidate `d` to the machine `k` consecutive times. -/
def SM.feedN (cfg : DebounceConfig) (d : String) : Nat → SM → SM
  | 0, s => s
  | k + 1, s => SM.feedN cfg d k (SM.update cfg s d)

/-! ## Fingerprints (`imagehash` collaborator, `hasher.py`)

An `imagehash.ImageHash` is a fixed-length bit array; subtraction of two
hashes is the Hamming distance (count of differing bits). -/

/-- A perceptual fingerprint: a fixed-length bit list. -/
def Hash : Type := List Bool

/-- Embeds `ImageHash.__sub__`: Hamming distance between two fingerprints. -/
def hash_dist (a b : Hash) : Nat :=
  (List.zip a b).countP fun p => p.1 != p.2

/-- The `min_dist` loop of `Matcher.match_state`: minimum distance from the
current crop's hash to a reference list (`none` when the list is empty, in
which case the loop is never entered and the code takes the no-refs path). -/
def min_dist_to (h : Hash) : List Hash → Option Nat
  | [] => none
  | r :: rs => some (rs.foldl (fun m x => min m (hash_dist h x)) (hash_dist h r))

/-! ## Data model (`egm_streamer/models.py`, fields as used by
`matcher.py` / `config.py`)

`matcher.py` reads `roi.negative` and `roi.ref_state`, and `config.py`
handles ROIs whose coordinates are absent before link resolution, so the
operative `ROI` model carries optional coordinates plus the `required`,
`negative` and `ref_state` fields. -/

/-- An ROI: named rectangle (coordinates optional until link resolution),
`required`/`negative` flags and an optional `ref_state` link. -/
structure ROI where
  name : String
  x : Option Int
  y : Option Int
  w : Option Int
  h : Option Int
  required : Bool
  negative : Bool
  ref_state : Option String
deriving DecidableEq

/-- Embeds `MatchPolicy` from `models.py`. -/
structure MatchPolicy where
  min_match : Nat
  max_match : Nat
  threshold : Nat
deriving DecidableEq

/-- Python truthiness of `roi.ref_state` (`None` and `""` are falsy). -/
def ref_state_opt (roi : ROI) : Option String :=
  match roi.ref_state with
  | none => none
  | some t => if t = "" then none else some t

/-- Embeds `matcher.py` line 32: `target_ref_state = roi.ref_state if roi.ref_state
else state_name`. -/
def target_ref_state (state_name : String) (roi : ROI) : String :=
  (ref_state_opt roi).getD state_name

/-- The reference fingerprints used for one ROI: the cache entry of the
linked state (when a link is declared) or of the ROI's own state, under the
ROI's own name (`matcher.py` lines 32-33). -/
def roi_refs (get_hashes : String → String → List Hash) (state_name : String)
    (roi : ROI) : List Hash :=
  get_hashes (target_ref_state state_name roi) roi.name

/-! ## ROI matcher (`egm_streamer/matcher.py`, `Matcher.match_state`) -/

/-- The running accumulator of the `for roi in rois` loop in `match_state`. -/
structure MatchAcc where
  matched_rois : List String
  total_dist : ℚ
  match_count : Nat
  roi_count : Nat
  required_missed : Bool

/-- The minimum reference distance of one ROI (`none` when it has no refs). -/
def roi_min (crop_hash : ROI → Hash) (get_hashes : String → String → List Hash)
    (state_name : String) (roi : ROI) : Option Nat :=
  min_dist_to (crop_hash roi) (roi_refs get_hashes state_name roi)

/-- One iteration of the `for roi in rois` loop of `match_state`. -/
def match_step (crop_hash : ROI → Hash) (get_hashes : String → String → List Hash)
    (state_name : String) (policy : MatchPolicy) (acc : MatchAcc) (roi : ROI) : MatchAcc :=
  match roi_min crop_hash get_hashes state_name roi with
  | none =>
    -- no refs: required → required-miss, otherwise skipped entirely
    { acc with required_missed := acc.required_missed || roi.required }
  | some m =>
    let contribution : ℚ :=
      if roi.negative then (if m ≤ policy.threshold then 100 else 0) else (m : ℚ)
    let acc1 :=
      if roi.negative then
        { acc with required_missed :=
            acc.required_missed || (roi.required && decide (m ≤ policy.threshold)) }
      else if m ≤ policy.threshold then
        { acc with matched_rois := acc.matched_rois ++ [roi.name],
                   match_count := acc.match_count + 1 }
      else
        { acc with required_missed := acc.required_missed || roi.required }
    { acc1 with total_dist := acc1.total_dist + contribution,
                roi_count := acc1.roi_count + 1 }

/-- The triple returned by `Matcher.match_state`. -/
structure MatchOutcome where
  is_match : Bool
  matched_rois : List String
  avg_distance : ℚ
deriving DecidableEq

/-- Embeds `Matcher.match_state`, translated from `matcher.py` lines 14-95:
run the per-ROI loop, then report `(is_match, matched_rois, avg_distance)`.
On a required-miss the verdict is `false` and the average is still reported
from whatever was accumulated (`-1` sentinel mapped to `999`). -/
def match_state (crop_hash : ROI → Hash) (get_hashes : String → String → List Hash)
    (state_name : String) (rois : List ROI) (policy : MatchPolicy) : MatchOutcome :=
  let acc := rois.foldl (match_step crop_hash get_hashes state_name policy) ⟨[], 0, 0, 0, false⟩
  let avg : ℚ := if 0 < acc.roi_count then acc.total_dist / acc.roi_count else -1
  if acc.required_missed then
    ⟨false, acc.matched_rois, if 0 ≤ avg then avg else 999⟩
  else
    ⟨decide (policy.min_match ≤ acc.match_count) && decide (avg ≤ (policy.threshold : ℚ)),
     acc.matched_rois, avg⟩

/-! ### Closed-form re-statements of the loop aggregates

These express the loop accumulator as list aggregates; they are related to
`match_state` by `match_fold` / `match_state_eq` below. -/

/-- The contribution one ROI adds to the running total in the code:
its min distance for a positive ROI (matched or not), the 100 penalty for a
present negative signature, 0 for an absent one; `none` when it has no refs
(skipped entirely). -/
def roi_contribution (crop_hash : ROI → Hash) (get_hashes : String → String → List Hash)
    (state_name : String) (policy : MatchPolicy) (roi : ROI) : Option ℚ :=
  match roi_min crop_hash get_hashes state_name roi with
  | none => none
  | some m =>
    some (if roi.negative then (if m ≤ policy.threshold then 100 else 0) else (m : ℚ))

/-- Names of the positive ROIs whose min distance is within the threshold. -/
def spec_matched_rois (crop_hash : ROI → Hash) (get_hashes : String → String → List Hash)
    (state_name : String) (policy : MatchPolicy) (rois : List ROI) : List String :=
  rois.filterMap fun roi =>
    match roi_min crop_hash get_hashes state_name roi with
    | none => none
    | some m => if !roi.negative && decide (m ≤ policy.threshold) then some roi.name else none

/-- Sum of the per-ROI contributions (`total_dist` of the loop). -/
def spec_total (crop_hash : ROI → Hash) (get_hashes : String → String → List Hash)
    (state_name : String) (policy : MatchPolicy) (rois : List ROI) : ℚ :=
  (rois.filterMap (roi_contribution crop_hash get_hashes state_name policy)).sum

/-- Number of ROIs with a non-empty reference set (`roi_count` of the loop). -/
def spec_roi_count (crop_hash : ROI → Hash) (get_hashes : String → String → List Hash)
    (state_name : String) (rois : List ROI) : Nat :=
  rois.countP fun roi => (roi_min crop_hash get_hashes state_name roi).isSome

/-- Whether some required ROI misses: its reference set is empty, or it is
positive with min distance above the threshold, or negative with min
distance within the threshold. -/
def spec_required_miss (crop_hash : ROI → Hash) (get_hashes : String → String → List Hash)
    (state_name : String) (policy : MatchPolicy) (rois : List ROI) : Bool :=
  rois.any fun roi =>
    roi.required &&
      (match roi_min crop_hash get_hashes state_name roi with
       | none => true
       | some m =>
         if roi.negative then decide (m ≤ policy.threshold) else decide (policy.threshold < m))

/-- The contribution enumeration as the spec claim words it: a negative ROI
contributes 100 or 0, a matched positive ROI contributes its min distance,
and no other ROI contributes. -/
def claim_contribution (crop_hash : ROI → Hash) (get_hashes : String → String → List Hash)
    (state_name : String) (policy : MatchPolicy) (roi : ROI) : Option ℚ :=
  match roi_min crop_hash get_hashes state_name roi with
  | none => none
  | some m =>
    if roi.negative then some (if m ≤ policy.threshold then 100 else 0)
    else if m ≤ policy.threshold then some (m : ℚ) else none

/-- The average distance as the spec claim words it: mean of the claimed
contributions. -/
def claim_avg (crop_hash : ROI → Hash) (get_hashes : String → String → List Hash)
    (state_name : String) (policy : MatchPolicy) (rois : List ROI) : ℚ :=
  let cs := rois.filterMap (claim_contribution crop_hash get_hashes state_name policy)
  cs.sum / (cs.length : ℚ)

/-! ## Candidate selection (`egm_streamer/detector.py`, `step` lines 102-141) -/

/-- The `matching_states` list: `(name, avg_distance)` of every state whose
`MatchResult.is_match` is true, in the order of the summary (= the
configured priority order). -/
def matching_states (matches_summary : List (String × MatchOutcome)) : List (String × ℚ) :=
  matches_summary.filterMap fun p =>
    if p.2.is_match then some (p.1, p.2.avg_distance) else none

/-- Stable insertion into a distance-sorted list (an element is placed
before the first strictly-or-equally farther element coming later in the
original order, matching Python's stable `list.sort(key=...)`). -/
def insert_by_dist (x : String × ℚ) : List (String × ℚ) → List (String × ℚ)
  | [] => [x]
  | y :: ys => if x.2 ≤ y.2 then x :: y :: ys else y :: insert_by_dist x ys

/-- Embeds `matching_states.sort(key=lambda x: x[1])` — a stable sort by distance. -/
def sort_by_dist : List (String × ℚ) → List (String × ℚ)
  | [] => []
  | x :: xs => insert_by_dist x (sort_by_dist xs)

/-- The `for state_name, dist in matching_states: if state_name ==
current_sm_state: break` loop — the first listed distance of a state. -/
def lookup_dist (current : String) : List (String × ℚ) → Option ℚ
  | [] => none
  | x :: xs => if x.1 = current then some x.2 else lookup_dist current xs

/-- The candidate-selection logic of `EgmStateDetector.step` (lines
102-141): sort the matching states by average distance; keep the current
stabilized state if it matches within 3 distance units of the best,
otherwise take the best by distance; `"OTHER"` when nothing matches. -/
def select_candidate (current_sm_state : String)
    (matches_summary : List (String × MatchOutcome)) : String :=
  let ms := matching_states matches_summary
  match sort_by_dist ms with
  | [] => "OTHER"
  | best :: _ =>
    match lookup_dist current_sm_state ms with
    | some d => if d ≤ best.2 + 3 then current_sm_state else best.1
    | none => best.1

/-- The first element of minimal distance (what the head of a stable sort
by distance is). -/
def first_min : List (String × ℚ) → Option (String × ℚ)
  | [] => none
  | x :: xs =>
    match first_min xs with
    | none => some x
    | some y => if x.2 ≤ y.2 then some x else some y

/-- Candidate selection as the amended claim words it: the best matching
state is the one with the smallest average distance, earliest in priority
order among ties; the current state is kept only when it matches within 3
distance units of that best; otherwise the best is taken; `"OTHER"` when
nothing matches. -/
def select_spec (current_sm_state : String)
    (matches_summary : List (String × MatchOutcome)) : String :=
  let ms := matching_states matches_summary
  match first_min ms with
  | none => "OTHER"
  | some best =>
    match lookup_dist current_sm_state ms with
    | some d => if d ≤ best.2 + 3 then current_sm_state else best.1
    | none => best.1

/-! ## Detection orchestrator (`egm_streamer/detector.py`, `step`) -/

/-- A decoded frame, embedded by what each ROI's crop fingerprints to
(`img.crop` + `compute_hash`). -/
def Frame : Type := ROI → Hash

/-- The per-state slice of the configuration that `step` uses. -/
structure StateCfg where
  rois : List ROI
  match_policy : MatchPolicy
deriving DecidableEq

/-- First-match association lookup (`dict.get` over insertion-ordered,
unique keys). -/
def lookup_assoc {α : Type} : List (String × α) → String → Option α
  | [], _ => none
  | p :: ps, k => if p.1 = k then some p.2 else lookup_assoc ps k

/-- The detector slice of `AppConfig` that `step` uses. -/
structure DetectorCfg where
  priority : List String
  states : List (String × StateCfg)
  debounce : DebounceConfig

/-- Embeds `DetectionResult` from `models.py` (`matches` keeps the insertion order
of the summary dict, i.e. priority order). -/
structure DetectionResult where
  state : String
  «matches» : List (String × MatchOutcome)
  timestamp : ℚ
deriving DecidableEq

/-- The detector's mutable state across cycles: the debounce machine and
`_last_state`. -/
structure DetectorState where
  sm : SM
  last_state : String

/-- Embeds `EgmStateDetector.step`, translated from `detector.py` lines 63-164.
`frame` is the outcome of `_read_snapshot_image` (`none` when the read or
decode raised).  The third component records the status-file write performed
by `_write_status` (`os.replace` of a freshly written temporary, i.e. one
atomic replacement of the status file content): `none` means the cycle wrote
nothing. -/
def step (det : DetectorCfg) (get_hashes : String → String → List Hash)
    (frame : Option Frame) (ts : ℚ) (ds : DetectorState) :
    DetectorState × DetectionResult × Option DetectionResult :=
  match frame with
  | none =>
    -- snapshot read failed: short-circuit to UNKNOWN, empty matches,
    -- no state-machine update, no status write
    (ds, ⟨"UNKNOWN", [], ts⟩, none)
  | some img =>
    let matches_summary := det.priority.filterMap fun state_name =>
      match lookup_assoc det.states state_name with
      | none => none
      | some state_cfg =>
        some (state_name,
          match_state img get_hashes state_name state_cfg.rois state_cfg.match_policy)
    let best_candidate := select_candidate ds.sm.current_state matches_summary
    let sm1 := SM.update det.debounce ds.sm best_candidate
    let final_state := sm1.current_state
    let result : DetectionResult := ⟨final_state, matches_summary, ts⟩
    let last1 := if final_state ≠ ds.last_state then final_state else ds.last_state
    (⟨sm1, last1⟩, result, some result)

/-! ## Reference hash store (`egm_streamer/refs.py`, `ReferenceManager`) -/

/-- The filesystem view of one state's reference directory: whether it
exists, the `st_mtime` of each contained file, and an opaque digest of the
decoded reference images (what a recomputation would store). -/
structure StateFS where
  dir_exists : Bool
  file_mtimes : List ℚ
  images_digest : Nat

/-- Embeds `ReferenceManager._get_dir_mtime`: maximum file mtime, `0.0` when the
glob is empty (missing or empty directory raises `ValueError` → `0.0`). -/
def get_dir_mtime (fs : StateFS) : ℚ :=
  if fs.dir_exists then
    match fs.file_mtimes with
    | [] => 0
    | m :: ms => ms.foldl max m
  else 0

/-- The manager's mutable state: per-state cache dict and per-state cached
directory mtime dict. A cache value is an opaque digest of the rebuilt
`{roi_name: [hashes]}` table (`0` for the empty table). -/
structure RefMgrState where
  caches : String → Option Nat
  mtimes : String → Option ℚ

/-- Embeds `ReferenceManager._load_state_refs`: a missing directory stores an empty
cache (and does not touch the cached mtime); an unchanged mtime is a no-op;
otherwise the whole per-state cache is recomputed and the mtime recorded.
The boolean reports whether fingerprints were recomputed. -/
def load_state_refs (fs : StateFS) (state_name : String) (r : RefMgrState) :
    RefMgrState × Bool :=
  if fs.dir_exists = false then
    ({ r with caches := fun n => if n = state_name then some 0 else r.caches n }, false)
  else if r.mtimes state_name = some (get_dir_mtime fs) then
    (r, false)
  else
    ({ caches := fun n => if n = state_name then some fs.images_digest else r.caches n,
       mtimes := fun n => if n = state_name then some (get_dir_mtime fs) else r.mtimes n },
     true)

/-- One iteration of the `reload_if_needed` loop: reload a state only when
the directory's current max mtime is strictly greater than the cached value
(default `0`). -/
def reload_state (env : String → StateFS) (r : RefMgrState) (name : String) :
    RefMgrState × Bool :=
  if (r.mtimes name).getD 0 < get_dir_mtime (env name) then
    load_state_refs (env name) name r
  else (r, false)

/-- Embeds `ReferenceManager.reload_if_needed`: iterate the configured states in
order, reloading the stale ones; also returns the list of state names whose
fingerprints were recomputed during this call. -/
def reload_if_needed (env : String → StateFS) (state_names : List String)
    (r : RefMgrState) : RefMgrState × List String :=
  match state_names with
  | [] => (r, [])
  | n :: ns =>
    let first := reload_state env r n
    let rest := reload_if_needed env ns first.1
    (rest.1, (if first.2 then [n] else []) ++ rest.2)

/-! ## Configuration link resolution (`egm_streamer/config.py`, `load_config`) -/

/-- Embeds `roi.x is None or roi.y is None or roi.w is None or roi.h is None`. -/
def missing_coords (roi : ROI) : Bool :=
  roi.x.isNone || roi.y.isNone || roi.w.isNone || roi.h.isNone

/-- The per-ROI body of the `load_config` resolution loop: an ROI with a
truthy `ref_state` and missing coordinates copies the coordinates of the
same-named ROI of the target state; a missing target state or target ROI,
or a target ROI whose own `x` is `None` (chained coordinate link), raises
`ValueError`. Any other ROI is left untouched. -/
def resolve_one (states : List (String × StateCfg)) (state_name : String)
    (roi : ROI) : Except String ROI :=
  match ref_state_opt roi with
  | none => Except.ok roi
  | some target =>
    if missing_coords roi then
      match lookup_assoc states target with
      | none =>
        Except.error ("State " ++ state_name ++ " ROI " ++ roi.name ++
          " references unknown state " ++ target)
      | some target_state =>
        match target_state.rois.find? (fun r2 => r2.name = roi.name) with
        | none =>
          Except.error ("State " ++ state_name ++ " ROI " ++ roi.name ++
            " references a ROI that does not exist in " ++ target)
        | some target_roi =>
          if target_roi.x.isNone then
            Except.error ("Target ROI " ++ roi.name ++ " in " ++ target ++
              " also has missing coordinates")
          else
            Except.ok { roi with x := target_roi.x, y := target_roi.y,
                                 w := target_roi.w, h := target_roi.h }
    else Except.ok roi

/-- Resolve the ROI stored at index `i` of `state_name`'s ROI list and write
it back in place (the Python loop mutates the shared config object). -/
def resolve_roi_index (states : List (String × StateCfg)) (state_name : String)
    (i : Nat) : Except String (List (String × StateCfg)) :=
  match lookup_assoc states state_name with
  | none => Except.ok states
  | some sc =>
    match sc.rois.get? i with
    | none => Except.ok states
    | some roi =>
      match resolve_one states state_name roi with
      | Except.error e => Except.error e
      | Except.ok roi2 =>
        Except.ok (states.map fun p =>
          if p.1 = state_name then (p.1, ⟨p.2.rois.set i roi2, p.2.match_policy⟩) else p)

/-- Process the given ROI indices of one state in order, threading the
mutated configuration. -/
def resolve_indices (state_name : String) :
    List Nat → List (String × StateCfg) → Except String (List (String × StateCfg))
  | [], states => Except.ok states
  | i :: is, states =>
    match resolve_roi_index states state_name i with
    | Except.error e => Except.error e
    | Except.ok s2 => resolve_indices state_name is s2

/-- The inner `for i, roi in enumerate(state_config.rois)` loop. -/
def resolve_state (states : List (String × StateCfg)) (state_name : String) :
    Except String (List (String × StateCfg)) :=
  let n := match lookup_assoc states state_name with
           | some sc => sc.rois.length
           | none => 0
  resolve_indices state_name (List.range n) states

/-- The outer `for state_name, state_config in states.items()` loop. -/
def resolve_states_list :
    List String → List (String × StateCfg) → Except String (List (String × StateCfg))
  | [], states => Except.ok states
  | n :: ns, states =>
    match resolve_state states n with
    | Except.error e => Except.error e
    | Except.ok s2 => resolve_states_list ns s2

/-- The link-resolution post-processing of `load_config` (`config.py`
lines 19-48). -/
def load_config_resolve (states : List (String × StateCfg)) :
    Except String (List (String × StateCfg)) :=
  resolve_states_list (states.map Prod.fst) states

/-- Claim-side predicate: the configuration contains a chained link — an
ROI declaring a link whose same-named ROI in the linked state itself
declares a link. -/
def has_chained_link (states : List (String × StateCfg)) : Bool :=
  states.any fun p => p.2.rois.any fun roi =>
    match ref_state_opt roi with
    | none => false
    | some t =>
      match lookup_assoc states t with
      | none => false
      | some ts =>
        match ts.rois.find? (fun r2 => r2.name = roi.name) with
        | none => false
        | some r2 => (ref_state_opt r2).isSome

/-! ## Capture supervisor restart backoff (`egm_streamer/capture.py`,
`PersistentCapturer.ensure_running` lines 171-180)

The backoff decision is a pure function of the current clock and the last
recorded start time; `time.sleep(w)` advances the clock by (at least) `w`,
so the modelled restart time is a lower bound on the recorded one. -/

/-- The sleep `ensure_running` performs before restarting:
`5.0 - time_since_last` when less than 5 s elapsed since the last start,
nothing otherwise. -/
def restart_wait (now last_start_time : ℚ) : ℚ :=
  if now - last_start_time < 5 then 5 - (now - last_start_time) else 0

/-- The clock value at which `start()` records the new `_last_start_time`:
the current time plus the backoff sleep. -/
def restart_start_time (now last_start_time : ℚ) : ℚ :=
  now + restart_wait now last_start_time

/-! ## Concrete inputs used by counterexamples and witnesses -/

/-- All-zero 64-bit fingerprint. -/
def bits0 : Hash := List.replicate 8 false

/-- Fingerprint with the first `n` bits set (Hamming distance `n`
from `bits0` for `n ≤ 8`). -/
def bitsN (n : Nat) : Hash := List.replicate n true ++ List.replicate (8 - n) false

/-- Positive non-required ROI named `A`. -/
def roiA : ROI := ⟨"A", some 0, some 0, some 8, some 8, false, false, none⟩

/-- Positive non-required ROI named `B`. -/
def roiB : ROI := ⟨"B", some 8, some 0, some 8, some 8, false, false, none⟩

/-- Negative variant of `roiB`. -/
def roiB_neg : ROI := { roiB with negative := true }

/-- Required variant of `roiA`. -/
def roiA_req : ROI := { roiA with required := true }

/-- Policy with `min_match 1`, `max_match 3`, `threshold 10`. -/
def pol_ex : MatchPolicy := ⟨1, 3, 10⟩

/-- Every crop fingerprints to the all-zero hash. -/
def crop_ex : ROI → Hash := fun _ => bits0

/-- Policy with `min_match 1`, `max_match 3`, `threshold 2`. -/
def pol_t2 : MatchPolicy := ⟨1, 3, 2⟩

/-- Reference cache giving ROI `A` min distance 1 and ROI `B` min
distance 6. -/
def gh_one_six : String → String → List Hash :=
  fun _ rn => if rn = "A" then [bitsN 1] else [bitsN 6]

/-- Reference cache giving ROI `A` min distance 2 and ROI `B` min
distance 3. -/
def gh_two_three : String → String → List Hash :=
  fun _ rn => if rn = "A" then [bitsN 2] else [bitsN 3]

/-- Reference cache giving every ROI min distance 6. -/
def gh_six : String → String → List Hash := fun _ _ => [bitsN 6]

/-- Empty reference cache. -/
def gh_empty : String → String → List Hash := fun _ _ => []

/-- Match summary in priority order: `A` matches at distance 0, `B` matches
at distance 10. -/
def summary_ab : List (String × MatchOutcome) :=
  [("A", ⟨true, ["a"], 0⟩), ("B", ⟨true, ["b"], 10⟩)]

/-- Directory snapshot after deleting the newest reference file: one file
left, mtime 5. -/
def env_rm : String → StateFS := fun _ => ⟨true, [5], 7⟩

/-- Manager state cached when the directory's max mtime was 10. -/
def r_rm : RefMgrState :=
  ⟨fun n => if n = "S" then some 7 else none,
   fun n => if n = "S" then some 10 else none⟩

/-- Directory snapshot with a single file of mtime 3. -/
def env_w : String → StateFS := fun _ => ⟨true, [3], 5⟩

/-- Fresh manager state (nothing cached). -/
def r0 : RefMgrState := ⟨fun _ => none, fun _ => none⟩

/-- Linked ROI `r` in state `A` with explicit coordinates. -/
def rA_link : ROI := ⟨"r", some 0, some 0, some 10, some 10, false, false, some "B"⟩

/-- Linked ROI `r` in state `B` with explicit coordinates (itself a link). -/
def rB_link : ROI := ⟨"r", some 1, some 1, some 10, some 10, false, false, some "C"⟩

/-- Plain ROI `r` in state `C`. -/
def rC_plain : ROI := ⟨"r", some 2, some 2, some 10, some 10, false, false, none⟩

/-- Configuration with a chained link whose ROIs all carry coordinates. -/
def cfg_chain : List (String × StateCfg) :=
  [("A", ⟨[rA_link], pol_ex⟩), ("B", ⟨[rB_link], pol_ex⟩), ("C", ⟨[rC_plain], pol_ex⟩)]

/-- Linked ROI `r` with all coordinates missing. -/
def rA_nc : ROI := ⟨"r", none, none, none, none, false, false, some "B"⟩

/-- Linked ROI `r` whose own `x` is missing. -/
def rB_nc : ROI := ⟨"r", none, some 1, some 1, some 1, false, false, some "C"⟩

/-- Configuration with a chained link through missing coordinates. -/
def cfg_chain_nc : List (String × StateCfg) :=
  [("A", ⟨[rA_nc], pol_ex⟩), ("B", ⟨[rB_nc], pol_ex⟩)]

/-- A detector configuration with no states. -/
def det_triv : DetectorCfg := ⟨[], [], ⟨2, 6⟩⟩

/-- Fresh detector state. -/
def ds0 : DetectorState := ⟨SM.init, "UNKNOWN"⟩

/-- A debounce machine stabilized in `SELECT` with fresh streaks. -/
def sm_select : SM := ⟨"SELECT", fun _ => 0, 0⟩

/-! ## Helper lemmas about the debounce machine -/

/-- Feeding one more frame is one more `update` on the outside. -/
theorem SM.feedN_succ (cfg : DebounceConfig) (d : String) (k : Nat) (s : SM) :
    SM.feedN cfg d (k + 1) s = SM.update cfg (SM.feedN cfg d k s) d := by
  induction k generalizing s with
  | zero => rfl
  | succ k ih =>
    show SM.feedN cfg d (k + 1) (SM.update cfg s d) = _
    rw [ih]
    rfl

/-- Streak/state invariant while repeatedly feeding one non-`OTHER`
candidate `X` from a stabilized-`OTHER` state with a fresh streak. -/
theorem SM.confirm_inv (cfg : DebounceConfig) (X : String) (hX : X ≠ "OTHER")
    (hc : 1 ≤ cfg.confirm_frames) (s : SM) (hcur : s.current_state = "OTHER")
    (h0 : s.streaks X = 0) (k : Nat) :
    (SM.feedN cfg X k s).streaks X = k ∧
    (SM.feedN cfg X k s).current_state =
      (if k < cfg.confirm_frames then "OTHER" else X) := by
  induction k with
  | zero =>
    refine ⟨h0, ?_⟩
    rw [if_pos (by omega)]
    exact hcur
  | succ k ih =>
    obtain ⟨ih1, ih2⟩ := ih
    rw [SM.feedN_succ]
    by_cases hk : k < cfg.confirm_frames
    · rw [if_pos hk] at ih2
      constructor
      · simp [SM.update, hX, ih1]
      · by_cases hk1 : k + 1 < cfg.confirm_frames
        · rw [if_pos hk1]
          simp [SM.update, hX, ih1, ih2]
          omega
        · rw [if_neg hk1]
          simp [SM.update, hX, ih1, ih2]
          omega
    · rw [if_neg hk] at ih2
      constructor
      · simp [SM.update, hX, ih1]
      · rw [if_neg (by omega)]
        simp [SM.update, hX, ih1, ih2]

/-- Miss-streak/state invariant while repeatedly feeding `OTHER` from a
confirmed non-`OTHER` state with a fresh miss streak. -/
theorem SM.drop_inv (cfg : DebounceConfig) (hd : 1 ≤ cfg.drop_frames)
    (s : SM) (hcur : s.current_state ≠ "OTHER") (h0 : s.none_streak = 0) (k : Nat) :
    (SM.feedN cfg "OTHER" k s).none_streak = k ∧
    (SM.feedN cfg "OTHER" k s).current_state =
      (if k < cfg.drop_frames then s.current_state else "OTHER") := by
  induction k with
  | zero =>
    refine ⟨h0, ?_⟩
    rw [if_pos (by omega)]
    rfl
  | succ k ih =>
    obtain ⟨ih1, ih2⟩ := ih
    rw [SM.feedN_succ]
    by_cases hk : k < cfg.drop_frames
    · rw [if_pos hk] at ih2
      constructor
      · simp [SM.update, ih1]
      · by_cases hk1 : k + 1 < cfg.drop_frames
        · have hle : ¬ cfg.drop_frames ≤ k + 1 := by omega
          rw [if_pos hk1]
          simp [SM.update, ih1, ih2, hcur, hle]
        · have hle : cfg.drop_frames ≤ k + 1 := by omega
          rw [if_neg hk1]
          simp [SM.update, ih1, ih2, hcur, hle]
          exact fun h => hcur h.symm
    · rw [if_neg hk] at ih2
      constructor
      · simp [SM.update, ih1]
      · rw [if_neg (by omega)]
        simp [SM.update, ih1, ih2]

/-! ## Helper lemmas about the matcher -/

/-- The `match_state` loop accumulator in closed form. -/
theorem match_fold (ch : ROI → Hash) (gh : String → String → List Hash) (sn : String)
    (pol : MatchPolicy) (rois : List ROI) (acc : MatchAcc) :
    rois.foldl (match_step ch gh sn pol) acc =
      ⟨acc.matched_rois ++ spec_matched_rois ch gh sn pol rois,
       acc.total_dist + spec_total ch gh sn pol rois,
       acc.match_count + (spec_matched_rois ch gh sn pol rois).length,
       acc.roi_count + spec_roi_count ch gh sn rois,
       acc.required_missed || spec_required_miss ch gh sn pol rois⟩ := by
  induction rois generalizing acc with
  | nil =>
    simp [spec_matched_rois, spec_total, spec_roi_count, spec_required_miss]
  | cons roi rois ih =>
    simp only [List.foldl_cons]
    rw [ih]
    rcases hmin : roi_min ch gh sn roi with _ | m
    · simp [match_step, hmin, spec_matched_rois, spec_total, spec_roi_count,
        spec_required_miss, roi_contribution, List.filterMap_cons, List.countP_cons,
        List.any_cons, Bool.or_assoc]
    · by_cases hneg : roi.negative = true
      · simp [match_step, hmin, hneg, spec_matched_rois, spec_total, spec_roi_count,
          spec_required_miss, roi_contribution, List.filterMap_cons, List.countP_cons,
          List.any_cons, Bool.or_assoc, add_assoc, add_comm, add_left_comm]
      · by_cases hm : m ≤ pol.threshold
        · have hlt : ¬ pol.threshold < m := by omega
          simp [match_step, hmin, hneg, hm, hlt, spec_matched_rois, spec_total, spec_roi_count,
            spec_required_miss, roi_contribution, List.filterMap_cons, List.countP_cons,
            List.any_cons, Bool.or_assoc, add_assoc, add_comm, add_left_comm]
        · have hlt : pol.threshold < m := by omega
          simp [match_step, hmin, hneg, hm, hlt, spec_matched_rois, spec_total, spec_roi_count,
            spec_required_miss, roi_contribution, List.filterMap_cons, List.countP_cons,
            List.any_cons, Bool.or_assoc, add_assoc, add_comm, add_left_comm]

/-- Restates `Matcher.match_state` in closed form over the list aggregates. -/
theorem match_state_eq (ch : ROI → Hash) (gh : String → String → List Hash) (sn : String)
    (rois : List ROI) (pol : MatchPolicy) :
    match_state ch gh sn rois pol =
      (let total := spec_total ch gh sn pol rois
       let rc := spec_roi_count ch gh sn rois
       let avg : ℚ := if 0 < rc then total / rc else -1
       if spec_required_miss ch gh sn pol rois then
         ⟨false, spec_matched_rois ch gh sn pol rois, if 0 ≤ avg then avg else 999⟩
       else
         ⟨decide (pol.min_match ≤ (spec_matched_rois ch gh sn pol rois).length) &&
            decide (avg ≤ (pol.threshold : ℚ)),
          spec_matched_rois ch gh sn pol rois, avg⟩) := by
  unfold match_state
  rw [match_fold]
  simp

/-- Every per-ROI contribution is nonnegative. -/
theorem roi_contribution_nonneg (ch : ROI → Hash) (gh : String → String → List Hash)
    (sn : String) (pol : MatchPolicy) (roi : ROI) (c : ℚ)
    (h : roi_contribution ch gh sn pol roi = some c) : 0 ≤ c := by
  unfold roi_contribution at h
  rcases hmin : roi_min ch gh sn roi with _ | m <;> rw [hmin] at h
  · exact absurd h (by simp)
  · simp only [Option.some.injEq] at h
    subst h
    by_cases hneg : roi.negative = true <;> by_cases hm : m ≤ pol.threshold <;>
      simp [hneg, hm]

/-- The accumulated total distance is nonnegative. -/
theorem spec_total_nonneg (ch : ROI → Hash) (gh : String → String → List Hash)
    (sn : String) (pol : MatchPolicy) (rois : List ROI) :
    0 ≤ spec_total ch gh sn pol rois := by
  unfold spec_total
  refine List.sum_nonneg ?_
  intro c hc
  rcases List.mem_filterMap.mp hc with ⟨roi, _, hroi⟩
  exact roi_contribution_nonneg ch gh sn pol roi c hroi

/-! ## Helper lemmas about candidate selection -/

/-- The head of the stable sort by distance is the first element of minimal
distance. -/
theorem sort_by_dist_head (l : List (String × ℚ)) :
    (sort_by_dist l).head? = first_min l := by
  induction l with
  | nil => rfl
  | cons x xs ih =>
    show (insert_by_dist x (sort_by_dist xs)).head? = _
    rcases h : sort_by_dist xs with _ | ⟨y, ys⟩
    · have hfm : first_min xs = none := by rw [← ih, h]; rfl
      simp [insert_by_dist, first_min, hfm, h]
    · have hfm : first_min xs = some y := by rw [← ih, h]; rfl
      by_cases hxy : x.2 ≤ y.2
      · simp [insert_by_dist, first_min, hfm, hxy]
      · simp [insert_by_dist, first_min, hfm, hxy]

/-! ## Helper lemmas about the reference hash store -/

/-- One `reload_state` call touches no other state's cache or mtime entry. -/
theorem reload_state_preserves (env : String → StateFS) (r : RefMgrState)
    (n m : String) (hm : m ≠ n) :
    (reload_state env r n).1.mtimes m = r.mtimes m ∧
    (reload_state env r n).1.caches m = r.caches m := by
  unfold reload_state load_state_refs
  split_ifs <;> simp [hm]

/-- With a nonnegative cached mtime, `reload_state` recomputes exactly when
the directory's current max mtime is strictly greater than the cached
value. -/
theorem reload_state_flag (env : String → StateFS) (r : RefMgrState) (n : String)
    (h : 0 ≤ (r.mtimes n).getD 0) :
    (reload_state env r n).2 =
      decide ((r.mtimes n).getD 0 < get_dir_mtime (env n)) := by
  unfold reload_state
  by_cases hc : (r.mtimes n).getD 0 < get_dir_mtime (env n)
  · rw [if_pos hc]
    have hex : (env n).dir_exists = true := by
      by_contra hne
      have h0 : get_dir_mtime (env n) = 0 := by
        simp [get_dir_mtime, hne]
      rw [h0] at hc
      exact absurd (lt_of_le_of_lt h hc) (lt_irrefl 0)
    have hne2 : ¬ r.mtimes n = some (get_dir_mtime (env n)) := by
      intro heq
      rw [heq] at hc
      simp at hc
    unfold load_state_refs
    rw [if_neg (by simp [hex]), if_neg hne2]
    simp [hc]
  · rw [if_neg hc]
    simp [hc]

/-- With a nonnegative cached mtime, after one `reload_state` call the
cached mtime is no longer behind the directory. -/
theorem reload_state_post (env : String → StateFS) (r : RefMgrState) (n : String)
    (h : 0 ≤ (r.mtimes n).getD 0) :
    ¬ (((reload_state env r n).1.mtimes n).getD 0 < get_dir_mtime (env n)) := by
  unfold reload_state
  by_cases hc : (r.mtimes n).getD 0 < get_dir_mtime (env n)
  · rw [if_pos hc]
    have hex : (env n).dir_exists = true := by
      by_contra hne
      have h0 : get_dir_mtime (env n) = 0 := by
        simp [get_dir_mtime, hne]
      rw [h0] at hc
      exact absurd (lt_of_le_of_lt h hc) (lt_irrefl 0)
    have hne2 : ¬ r.mtimes n = some (get_dir_mtime (env n)) := by
      intro heq
      rw [heq] at hc
      simp at hc
    unfold load_state_refs
    rw [if_neg (by simp [hex]), if_neg hne2]
    simp
  · rw [if_neg hc]
    exact hc

/-- A `reload_if_needed` pass touches no entry of a state outside the
iterated list. -/
theorem reload_pass_preserves (env : String → StateFS) (ns : List String)
    (r : RefMgrState) (m : String) (hm : m ∉ ns) :
    (reload_if_needed env ns r).1.mtimes m = r.mtimes m ∧
    (reload_if_needed env ns r).1.caches m = r.caches m := by
  induction ns generalizing r with
  | nil => exact ⟨rfl, rfl⟩
  | cons n ns ih =>
    have hmn : m ≠ n := fun he => hm (he ▸ List.mem_cons_self n ns)
    have hmns : m ∉ ns := fun he => hm (List.mem_cons_of_mem n he)
    have h1 := reload_state_preserves env r n m hmn
    have h2 := ih (reload_state env r n).1 hmns
    exact ⟨h2.1.trans h1.1, h2.2.trans h1.2⟩

/-- The list of states recomputed by one `reload_if_needed` call is exactly
the list of states whose directory max mtime is strictly ahead of the
cached value. -/
theorem reload_log (env : String → StateFS) (ns : List String) (r : RefMgrState)
    (hnd : ns.Nodup) (hnn : ∀ n, n ∈ ns → 0 ≤ (r.mtimes n).getD 0) :
    (reload_if_needed env ns r).2 =
      ns.filter fun n => decide ((r.mtimes n).getD 0 < get_dir_mtime (env n)) := by
  induction ns generalizing r with
  | nil => rfl
  | cons n ns ih =>
    obtain ⟨hn, hnd'⟩ := List.nodup_cons.mp hnd
    have hflag := reload_state_flag env r n (hnn n (List.mem_cons_self n ns))
    have hrest := ih (reload_state env r n).1 hnd' (fun m hm => by
      rw [(reload_state_preserves env r n m (fun he => hn (he ▸ hm))).1]
      exact hnn m (List.mem_cons_of_mem n hm))
    have hcong : (ns.filter fun m =>
        decide (((reload_state env r n).1.mtimes m).getD 0 < get_dir_mtime (env m))) =
        ns.filter fun m => decide ((r.mtimes m).getD 0 < get_dir_mtime (env m)) := by
      refine List.filter_congr ?_
      intro m hm
      rw [(reload_state_preserves env r n m (fun he => hn (he ▸ hm))).1]
    show ((if (reload_state env r n).2 then [n] else []) ++
        (reload_if_needed env ns (reload_state env r n).1).2) = _
    rw [hrest, hcong, hflag, List.filter_cons]
    by_cases hc : (r.mtimes n).getD 0 < get_dir_mtime (env n) <;> simp [hc]

/-- Immediately repeating a `reload_if_needed` call against an unchanged
filesystem recomputes nothing and leaves the manager state unchanged. -/
theorem reload_idem (env : String → StateFS) (ns : List String) (r : RefMgrState)
    (hnd : ns.Nodup) (hnn : ∀ n, n ∈ ns → 0 ≤ (r.mtimes n).getD 0) :
    reload_if_needed env ns (reload_if_needed env ns r).1 =
      ((reload_if_needed env ns r).1, []) := by
  induction ns generalizing r with
  | nil => rfl
  | cons n ns ih =>
    obtain ⟨hn, hnd'⟩ := List.nodup_cons.mp hnd
    have hnn1 : ∀ m, m ∈ ns → 0 ≤ ((reload_state env r n).1.mtimes m).getD 0 := by
      intro m hm
      rw [(reload_state_preserves env r n m (fun he => hn (he ▸ hm))).1]
      exact hnn m (List.mem_cons_of_mem n hm)
    have hpost := reload_state_post env r n (hnn n (List.mem_cons_self n ns))
    have hR : (reload_if_needed env (n :: ns) r).1 =
        (reload_if_needed env ns (reload_state env r n).1).1 := rfl
    have hRn : ((reload_if_needed env (n :: ns) r).1.mtimes n).getD 0 =
        (((reload_state env r n).1).mtimes n).getD 0 := by
      rw [hR, (reload_pass_preserves env ns (reload_state env r n).1 n hn).1]
    have hfirst : reload_state env (reload_if_needed env (n :: ns) r).1 n =
        ((reload_if_needed env (n :: ns) r).1, false) := by
      unfold reload_state
      rw [if_neg (by rw [hRn]; exact hpost)]
    show ((reload_if_needed env ns (reload_state env
        (reload_if_needed env (n :: ns) r).1 n).1).1,
      (if (reload_state env (reload_if_needed env (n :: ns) r).1 n).2 then [n] else []) ++
        (reload_if_needed env ns (reload_state env
          (reload_if_needed env (n :: ns) r).1 n).1).2) = _
    rw [hfirst]
    have hih := ih (reload_state env r n).1 hnd' hnn1
    rw [hR]
    rw [hih]
    simp

/-! ## Claim theorems -/

/-- C3: with `confirm_frames = c ≥ 1` and `drop_frames = d ≥ 1`, the
debounce machine stays in `OTHER` while a non-`OTHER` candidate has been fed
fewer than `c` consecutive times and switches to it exactly on the `c`-th
consecutive feed; and from a confirmed non-`OTHER` state, fewer than `d`
consecutive `OTHER` feeds keep the state while the `d`-th drops it to
`OTHER`. -/
theorem claim3_theorem (cfg : DebounceConfig) (X : String) (s s' : SM)
    (hc : 1 ≤ cfg.confirm_frames) (hd : 1 ≤ cfg.drop_frames) (hX : X ≠ "OTHER")
    (hcur : s.current_state = "OTHER") (h0 : s.streaks X = 0)
    (hcur' : s'.current_state ≠ "OTHER") (h0' : s'.none_streak = 0) :
    (∀ k, k < cfg.confirm_frames → (SM.feedN cfg X k s).current_state = "OTHER") ∧
    (SM.feedN cfg X cfg.confirm_frames s).current_state = X ∧
    (∀ k, k < cfg.drop_frames →
      (SM.feedN cfg "OTHER" k s').current_state = s'.current_state) ∧
    (SM.feedN cfg "OTHER" cfg.drop_frames s').current_state = "OTHER" := by
  refine ⟨?_, ?_, ?_, ?_⟩
  · intro k hk
    rw [(SM.confirm_inv cfg X hX hc s hcur h0 k).2, if_pos hk]
  · rw [(SM.confirm_inv cfg X hX hc s hcur h0 cfg.confirm_frames).2,
      if_neg (lt_irrefl _)]
  · intro k hk
    rw [(SM.drop_inv cfg hd s' hcur' h0' k).2, if_pos hk]
  · rw [(SM.drop_inv cfg hd s' hcur' h0' cfg.drop_frames).2, if_neg (lt_irrefl _)]

/-- Witness for C3: `confirm_frames 2`, `drop_frames 3`; one `SELECT` leaves
`OTHER`, the second switches to `SELECT`; two `OTHER` feeds keep `SELECT`,
the third drops to `OTHER`. -/
theorem claim3_witness :
    (SM.feedN ⟨2, 3⟩ "SELECT" 1 SM.init).current_state = "OTHER" ∧
    (SM.feedN ⟨2, 3⟩ "SELECT" 2 SM.init).current_state = "SELECT" ∧
    (SM.feedN ⟨2, 3⟩ "OTHER" 2 sm_select).current_state = sm_select.current_state ∧
    (SM.feedN ⟨2, 3⟩ "OTHER" 3 sm_select).current_state = "OTHER" := by
  have h := claim3_theorem ⟨2, 3⟩ "SELECT" SM.init sm_select (by decide) (by decide)
    (by decide) rfl rfl (by decide) rfl
  exact ⟨h.1 1 (by decide), h.2.1, h.2.2.1 2 (by decide), h.2.2.2⟩

/-- C4: on an acquisition failure (missing file or failed decode), the cycle
returns state `UNKNOWN` with an empty matches map, performs no status write,
and leaves the debounce machine — current state, every hit streak, and the
miss streak — exactly as it was. -/
theorem claim4_theorem (det : DetectorCfg) (gh : String → String → List Hash)
    (ts : ℚ) (ds : DetectorState) :
    step det gh none ts ds = (ds, ⟨"UNKNOWN", [], ts⟩, none) := rfl

/-- Counterexample for C8: a concrete acquisition-failure cycle performs no
status-file write at all (the third `step` component is `none`), while the
claim demands every cycle write its result. -/
theorem claim8_counterexample :
    (step det_triv gh_empty none 0 ds0).2.2 = none ∧
    (step det_triv gh_empty none 0 ds0).2.1.state = "UNKNOWN" := ⟨rfl, rfl⟩

/-- C8 (amended): every cycle that successfully reads and decodes a frame
writes exactly the cycle's `DetectionResult` to the status file via one
atomic replacement; an acquisition-failure cycle writes nothing. -/
theorem claim8_theorem (det : DetectorCfg) (gh : String → String → List Hash)
    (img : Frame) (ts : ℚ) (ds : DetectorState) :
    (step det gh (some img) ts ds).2.2 = some ((step det gh (some img) ts ds).2.1) := rfl

/-- C9: when the capture process has exited within 5 seconds of the last
start attempt, `ensure_running` sleeps until the 5-second floor before
restarting, so the new recorded start timestamp is at least 5 seconds after
the previous one. -/
theorem claim9_theorem (now last_start_time : ℚ) :
    (now - last_start_time < 5 →
      restart_start_time now last_start_time = last_start_time + 5) ∧
    last_start_time + 5 ≤ restart_start_time now last_start_time := by
  unfold restart_start_time restart_wait
  constructor
  · intro h
    rw [if_pos h]
    ring
  · by_cases h : now - last_start_time < 5
    · rw [if_pos h]
      have he : now + (5 - (now - last_start_time)) = last_start_time + 5 := by ring
      rw [he]
    · rw [if_neg h]
      push_neg at h
      linarith

/-- Witness for C9: a process death 2 seconds after a start at time 5 is
restarted at time 10, exactly 5 seconds after the previous start. -/
theorem claim9_witness :
    restart_start_time 7 5 = 5 + 5 ∧ 5 + 5 ≤ restart_start_time 7 5 := by
  have h := claim9_theorem 7 5
  exact ⟨h.1 (by norm_num), h.2⟩

/-- C10: after any `StateMachine.update` call, at most one candidate's hit
streak is nonzero, a nonzero miss streak forces all hit streaks to zero, a
non-`OTHER` input resets every other candidate's streak, and an `OTHER`
input clears all hit streaks. -/
theorem claim10_theorem (cfg : DebounceConfig) (s : SM) (d : String) :
    (∀ a b, (SM.update cfg s d).streaks a ≠ 0 → (SM.update cfg s d).streaks b ≠ 0 → a = b) ∧
    ((SM.update cfg s d).none_streak ≠ 0 → ∀ a, (SM.update cfg s d).streaks a = 0) ∧
    (d ≠ "OTHER" → ∀ t, t ≠ d → (SM.update cfg s d).streaks t = 0) ∧
    (d = "OTHER" → ∀ t, (SM.update cfg s d).streaks t = 0) := by
  have hstreaks : (SM.update cfg s d).streaks =
      if d = "OTHER" then (fun _ => 0)
      else (fun t => if t = d then s.streaks d + 1 else 0) := by
    unfold SM.update
    by_cases hd : d = "OTHER" <;> simp [hd]
  have hns : (SM.update cfg s d).none_streak =
      if d = "OTHER" then s.none_streak + 1 else 0 := by
    unfold SM.update
    by_cases hd : d = "OTHER" <;> simp [hd]
  by_cases hd : d = "OTHER"
  · rw [hd] at hstreaks hns ⊢
    simp only [if_pos rfl] at hstreaks
    refine ⟨?_, ?_, ?_, ?_⟩
    · intro a b ha _
      exact absurd (congrFun hstreaks a) ha
    · intro _ a
      exact congrFun hstreaks a
    · intro hne
      exact absurd rfl hne
    · intro _ a
      exact congrFun hstreaks a
  · rw [if_neg hd] at hstreaks hns
    refine ⟨?_, ?_, ?_, ?_⟩
    · intro a b ha hb
      by_cases had : a = d
      · by_cases hbd : b = d
        · rw [had, hbd]
        · exact absurd (by rw [congrFun hstreaks b, if_neg hbd]) hb
      · exact absurd (by rw [congrFun hstreaks a, if_neg had]) ha
    · intro hne
      exact absurd hns (fun he => hne (he.trans rfl))
    · intro _ t ht
      rw [congrFun hstreaks t, if_neg ht]
    · intro hde
      exact absurd hde hd

/-- Witness for C10: an `OTHER` input clears the `SELECT` streak and a
`SELECT` input leaves the `PLAYING` streak at zero. -/
theorem claim10_witness :
    (SM.update ⟨2, 6⟩ SM.init "OTHER").streaks "SELECT" = 0 ∧
    (SM.update ⟨2, 6⟩ SM.init "SELECT").streaks "PLAYING" = 0 :=
  ⟨(claim10_theorem ⟨2, 6⟩ SM.init "OTHER").2.2.2 rfl "SELECT",
   (claim10_theorem ⟨2, 6⟩ SM.init "SELECT").2.2.1 (by decide) "PLAYING" (by decide)⟩

/-- Counterexample for C1: both `A` (distance 0) and `B` (distance 10)
match and the debouncer's current state is `B`, yet the orchestrator picks
`A` — the current state is not kept unconditionally, and the selection
follows distance, not priority order. -/
theorem claim1_counterexample :
    ("B", (10 : ℚ)) ∈ matching_states summary_ab ∧
    select_candidate "B" summary_ab = "A" ∧ "A" ≠ "B" := by
  refine ⟨by simp [matching_states, summary_ab], ?_, by decide⟩
  have hms : matching_states summary_ab = [("A", (0 : ℚ)), ("B", 10)] := by
    simp [matching_states, summary_ab]
  have hsort : sort_by_dist [("A", (0 : ℚ)), ("B", 10)] = [("A", (0 : ℚ)), ("B", 10)] := by
    norm_num [sort_by_dist, insert_by_dist]
  have hlk : lookup_dist "B" [("A", (0 : ℚ)), ("B", 10)] = some 10 := by
    simp [lookup_dist]
  simp only [select_candidate, hms, hsort, hlk]
  norm_num

/-- C1 (amended): per cycle, if no state matches the candidate is `OTHER`;
otherwise, with `best` the matching state of smallest average distance
(earliest in priority order among ties), the candidate is the current
stabilized state when it matches within 3 distance units of `best`, and
`best` otherwise. -/
theorem claim1_theorem (current : String) (summary : List (String × MatchOutcome)) :
    select_candidate current summary = select_spec current summary := by
  have h := sort_by_dist_head (matching_states summary)
  rcases hs : sort_by_dist (matching_states summary) with _ | ⟨best, rest⟩ <;>
    rw [hs] at h <;>
    simp [select_candidate, select_spec, hs, ← h]

/-- Counterexample for C5: after deleting the newest reference file the
directory's max mtime (5) differs from the cached value (10), yet
`reload_if_needed` recomputes nothing and leaves the manager untouched. -/
theorem claim5_counterexample :
    get_dir_mtime (env_rm "S") ≠ (r_rm.mtimes "S").getD 0 ∧
    reload_if_needed env_rm ["S"] r_rm = (r_rm, []) := by
  constructor
  · have h5 : get_dir_mtime (env_rm "S") = 5 := by simp [env_rm, get_dir_mtime]
    have h10 : (r_rm.mtimes "S").getD 0 = 10 := by simp [r_rm]
    rw [h5, h10]
    norm_num
  · have h : ¬ ((r_rm.mtimes "S").getD 0 < get_dir_mtime (env_rm "S")) := by
      simp [r_rm, env_rm, get_dir_mtime]
      norm_num
    simp [reload_if_needed, reload_state, h]

/-- C5 (amended): `reload_if_needed` recomputes a state's fingerprint cache
exactly when the directory's current maximum file mtime is strictly greater
than the last-cached value (absent entries reading as 0): an unchanged
directory recomputes nothing, a new or edited file that advances the max
mtime triggers exactly one recomputation on the next call (an immediately
repeated call recomputes nothing), and a removal that lowers the max mtime
triggers none. -/
theorem claim5_theorem (env : String → StateFS) (names : List String)
    (r : RefMgrState) (hnd : names.Nodup)
    (hnn : ∀ n, n ∈ names → 0 ≤ (r.mtimes n).getD 0) :
    (reload_if_needed env names r).2 =
      (names.filter fun n => decide ((r.mtimes n).getD 0 < get_dir_mtime (env n))) ∧
    reload_if_needed env names (reload_if_needed env names r).1 =
      ((reload_if_needed env names r).1, []) :=
  ⟨reload_log env names r hnd hnn, reload_idem env names r hnd hnn⟩

/-- Witness for C5: a fresh manager sees a directory with one file of mtime
3, recomputes exactly state `S` on the first call and nothing on an
immediately repeated call. -/
theorem claim5_witness :
    (reload_if_needed env_w ["S"] r0).2 = ["S"] ∧
    reload_if_needed env_w ["S"] (reload_if_needed env_w ["S"] r0).1 =
      ((reload_if_needed env_w ["S"] r0).1, []) := by
  have h := claim5_theorem env_w ["S"] r0 (by simp) (fun n _ => le_refl 0)
  refine ⟨?_, h.2⟩
  rw [h.1]
  have hc : (r0.mtimes "S").getD 0 < get_dir_mtime (env_w "S") := by
    simp [r0, env_w, get_dir_mtime]
  simp [hc]

/-- C6: whenever some required ROI misses (no refs, a positive required ROI
above threshold, or a negative required ROI within threshold),
`match_state` returns `is_match = false` regardless of the other ROIs,
while still reporting the average of the accumulated contributions (999
when nothing contributed). -/
theorem claim6_theorem (ch : ROI → Hash) (gh : String → String → List Hash)
    (sn : String) (rois : List ROI) (pol : MatchPolicy)
    (h : spec_required_miss ch gh sn pol rois = true) :
    (match_state ch gh sn rois pol).is_match = false ∧
    (match_state ch gh sn rois pol).avg_distance =
      (if 0 < spec_roi_count ch gh sn rois then
        spec_total ch gh sn pol rois / (spec_roi_count ch gh sn rois : ℚ)
      else 999) := by
  rw [match_state_eq]
  refine ⟨by simp [h], ?_⟩
  by_cases hrc : 0 < spec_roi_count ch gh sn rois
  · have havg : (0 : ℚ) ≤ spec_total ch gh sn pol rois / (spec_roi_count ch gh sn rois : ℚ) :=
      div_nonneg (spec_total_nonneg ch gh sn pol rois) (by positivity)
    simp [h, hrc, havg]
  · have hneg : ¬ ((0 : ℚ) ≤ -1) := by norm_num
    simp [h, hrc, hneg]

/-- Witness for C6: one required positive ROI with min distance 6 under
threshold 2 misses, so `is_match` is false and the average 6 is still
reported. -/
theorem claim6_witness :
    (match_state crop_ex gh_six "S" [roiA_req] pol_t2).is_match = false ∧
    (match_state crop_ex gh_six "S" [roiA_req] pol_t2).avg_distance =
      (if 0 < spec_roi_count crop_ex gh_six "S" [roiA_req] then
        spec_total crop_ex gh_six "S" pol_t2 [roiA_req] /
          (spec_roi_count crop_ex gh_six "S" [roiA_req] : ℚ)
      else 999) :=
  claim6_theorem crop_ex gh_six "S" [roiA_req] pol_t2 (by decide)

/-- Counterexample for C7: a chained link (state `A`'s ROI links to state
`B`'s ROI, which itself links to state `C`) in which the ROIs carry
explicit coordinates is accepted by configuration loading, not rejected. -/
theorem claim7_counterexample :
    has_chained_link cfg_chain = true ∧
    load_config_resolve cfg_chain = Except.ok cfg_chain := ⟨rfl, rfl⟩

/-- C7 (amended): a linked ROI is matched against the linked state's cached
fingerprints for the same ROI name (one hop, a further link is never
followed); load-time resolution touches only a linked ROI with missing
coordinates: it copies the target ROI's coordinates and raises a
configuration error when the target ROI's own `x` is missing (a chained
coordinate link), while links between fully-coordinated ROIs are accepted
unchecked. -/
theorem claim7_theorem :
    (∀ (gh : String → String → List Hash) (sn : String) (roi : ROI) (t : String),
      ref_state_opt roi = some t → roi_refs gh sn roi = gh t roi.name)
    ∧ (∀ (states : List (String × StateCfg)) (sn : String) (roi : ROI) (t : String)
        (ts : StateCfg) (troi : ROI),
      ref_state_opt roi = some t → missing_coords roi = true →
      lookup_assoc states t = some ts →
      ts.rois.find? (fun r2 => r2.name = roi.name) = some troi →
      troi.x = none →
      ∃ e, resolve_one states sn roi = Except.error e)
    ∧ (∀ (states : List (String × StateCfg)) (sn : String) (roi : ROI) (t : String)
        (ts : StateCfg) (troi : ROI),
      ref_state_opt roi = some t → missing_coords roi = true →
      lookup_assoc states t = some ts →
      ts.rois.find? (fun r2 => r2.name = roi.name) = some troi →
      troi.x ≠ none →
      resolve_one states sn roi =
        Except.ok { roi with x := troi.x, y := troi.y, w := troi.w, h := troi.h }) := by
  refine ⟨?_, ?_, ?_⟩
  · intro gh sn roi t ht
    unfold roi_refs target_ref_state
    rw [ht]
    rfl
  · intro states sn roi t ts troi ht hmc hls hfind hx
    unfold resolve_one
    simp only [ht, hmc, if_true, hls, hfind, hx, Option.isNone_none]
    exact ⟨_, rfl⟩
  · intro states sn roi t ts troi ht hmc hls hfind hx
    rcases hxv : troi.x with _ | v
    · exact absurd hxv hx
    · unfold resolve_one
      simp only [ht, hmc, if_true, hls, hfind, hxv, Option.isNone_some]
      simp

/-- Witness for C7: a linked ROI with missing coordinates whose target ROI
also misses its `x` is rejected with a configuration error. -/
theorem claim7_witness :
    ∃ e, resolve_one cfg_chain_nc "A" rA_nc = Except.error e :=
  claim7_theorem.2.1 cfg_chain_nc "A" rA_nc "B" ⟨[rB_nc], pol_ex⟩ rB_nc
    rfl rfl rfl rfl rfl

/-- Counterexample for C2: two positive ROIs with non-empty refs and no
required-miss, min distances 1 (matched) and 6 (unmatched) under threshold
2 and `min_match` 1.  The claim's enumeration (only negative ROIs and
matched positive ROIs contribute) yields average 1 ≤ 2 with matched count
1 ≥ 1, so the claimed formula says match — but the code averages in the
unmatched positive ROI's distance too ((1+6)/2 > 2) and returns `false`. -/
theorem claim2_counterexample :
    ([roiA, roiB].all fun roi => !(roi_refs gh_one_six "S" roi).isEmpty) = true ∧
    spec_required_miss crop_ex gh_one_six "S" pol_t2 [roiA, roiB] = false ∧
    pol_t2.min_match ≤ (spec_matched_rois crop_ex gh_one_six "S" pol_t2 [roiA, roiB]).length ∧
    claim_avg crop_ex gh_one_six "S" pol_t2 [roiA, roiB] ≤ (pol_t2.threshold : ℚ) ∧
    (match_state crop_ex gh_one_six "S" [roiA, roiB] pol_t2).is_match = false := by
  have e1 : roi_min crop_ex gh_one_six "S" roiA = some 1 := by decide
  have e2 : roi_min crop_ex gh_one_six "S" roiB = some 6 := by decide
  have erm : spec_required_miss crop_ex gh_one_six "S" pol_t2 [roiA, roiB] = false := by
    decide
  have erc : spec_roi_count crop_ex gh_one_six "S" [roiA, roiB] = 2 := by decide
  have na : roiA.negative = false := rfl
  have nb : roiB.negative = false := rfl
  have ht2 : pol_t2.threshold = 2 := rfl
  have et : spec_total crop_ex gh_one_six "S" pol_t2 [roiA, roiB] = 7 := by
    simp [spec_total, roi_contribution, List.filterMap_cons, e1, e2, na, nb, ht2]
    norm_num
  refine ⟨by decide, erm, by decide, ?_, ?_⟩
  · have ha : claim_avg crop_ex gh_one_six "S" pol_t2 [roiA, roiB] = 1 := by
      simp [claim_avg, claim_contribution, List.filterMap_cons, e1, e2, na, nb, ht2]
    rw [ha]
    norm_num [pol_t2]
  · rw [match_state_eq]
    have hd : ¬ ((7 : ℚ) / 2 ≤ (pol_t2.threshold : ℚ)) := by norm_num [pol_t2]
    simp [erm, erc, et, hd]

/-- C2 (amended): with every ROI's resolved reference set non-empty and no
required-miss, `is_match = (matched_count ≥ min_match) AND (average ≤
threshold)` where the average is taken over EVERY ROI: a negative ROI
contributes the fixed 100 penalty when its min distance is within the
threshold and 0 otherwise, while every positive ROI — matched or not —
contributes its min distance; `max_match` never affects the verdict. -/
theorem claim2_theorem (ch : ROI → Hash) (gh : String → String → List Hash)
    (sn : String) (rois : List ROI) (pol : MatchPolicy)
    (h1 : (rois.all fun roi => !(roi_refs gh sn roi).isEmpty) = true)
    (h2 : spec_required_miss ch gh sn pol rois = false) :
    ((match_state ch gh sn rois pol).is_match = true ↔
      (pol.min_match ≤ (spec_matched_rois ch gh sn pol rois).length ∧
        spec_total ch gh sn pol rois / (rois.length : ℚ) ≤ (pol.threshold : ℚ)))
    ∧ (∀ mm, (match_state ch gh sn rois ⟨pol.min_match, mm, pol.threshold⟩).is_match =
        (match_state ch gh sn rois pol).is_match) := by
  have hrc : spec_roi_count ch gh sn rois = rois.length := by
    unfold spec_roi_count
    rw [List.countP_eq_length]
    intro roi hroi
    have hne := List.all_eq_true.mp h1 roi hroi
    rcases hrefs : roi_refs gh sn roi with _ | ⟨a, as⟩
    · rw [hrefs] at hne
      simp at hne
    · simp [roi_min, min_dist_to, hrefs]
  constructor
  · rw [match_state_eq]
    rcases rois with _ | ⟨r0, rs⟩
    · have hm1 : ((-1 : ℚ) ≤ (pol.threshold : ℚ)) :=
        le_trans (by norm_num) (Nat.cast_nonneg _)
      have hm0 : ((0 : ℚ) ≤ (pol.threshold : ℚ)) := Nat.cast_nonneg _
      simp [spec_matched_rois, spec_total, spec_roi_count, spec_required_miss, hm1, hm0]
    · have hpos : 0 < spec_roi_count ch gh sn (r0 :: rs) := by
        rw [hrc]
        exact Nat.succ_pos _
      simp only [h2, Bool.false_eq_true, if_false, hrc]
      simp [Nat.succ_pos, Bool.and_eq_true, decide_eq_true_iff]
  · intro mm
    rw [match_state_eq, match_state_eq]
    rfl

/-- Witness for C2 (the spec's own example): one positive ROI at distance 2
and one negative ROI at distance 3 under threshold 10; the formula makes
`is_match` false because the penalty-inflated average (2+100)/2 exceeds the
threshold. -/
theorem claim2_witness :
    ((match_state crop_ex gh_two_three "S" [roiA, roiB_neg] pol_ex).is_match = true ↔
      (pol_ex.min_match ≤
          (spec_matched_rois crop_ex gh_two_three "S" pol_ex [roiA, roiB_neg]).length ∧
        spec_total crop_ex gh_two_three "S" pol_ex [roiA, roiB_neg] /
            (([roiA, roiB_neg] : List ROI).length : ℚ) ≤ (pol_ex.threshold : ℚ)))
    ∧ (∀ mm,
        (match_state crop_ex gh_two_three "S" [roiA, roiB_neg]
          ⟨pol_ex.min_match, mm, pol_ex.threshold⟩).is_match =
        (match_state crop_ex gh_two_three "S" [roiA, roiB_neg] pol_ex).is_match) :=
  claim2_theorem crop_ex gh_two_three "S" [roiA, roiB_neg] pol_ex (by decide) (by decide)

end EgmStreamer

